import Mathlib

/-!
Verification development for the auto-pm webhook / registration subsystem.

The definitions below are a shallow embedding of the Python sources:
- `src/services/zalo_webhook_service.py` (role resolution, file
  classification, CV extraction and cache, registration store, text
  command handling),
- `src/app/routers/webhooks.py` (event dedup, webhook endpoint,
  approval / decline processing),
- `src/services/project_service.py` (`create_user`),
- `src/services/analysis_cv.py` (the `Candidate` model of the CV analyzer).

External collaborators (the messaging platform, the LLM analyzer, the
database) are modelled as oracles / explicit state; machine-level side
effects that no claim depends on (logging, the Qdrant long-memory store)
are not modelled.
-/

namespace AutoPM

/-! ## Roles and file classification (`_get_user_role`, `_detect_file_type`) -/

/-- Role strings used by `zalo_webhook_service` (hr, manager, staff, unknown). -/
inductive Role where
  | hr
  | manager
  | staff
  | unknown
  deriving DecidableEq, Repr

/-- Result of `_detect_file_type`. -/
inductive FileType where
  | cv
  | wbs
  | unknown
  deriving DecidableEq, Repr

/-- One atom of the regexes used in `_detect_file_type`: a literal character
or a character class such as `[-_.]`.  The source patterns use no other
regex features apart from the `^` anchor, handled in `Pat`. -/
inductive PatAtom where
  | lit (c : Char)
  | cls (cs : List Char)
  deriving DecidableEq, Repr

/-- A pattern: an optional `^` anchor and a sequence of atoms. -/
structure Pat where
  anchored : Bool
  atoms : List PatAtom
  deriving DecidableEq, Repr

def atomMatch : PatAtom → Char → Bool
  | .lit c, d => c == d
  | .cls cs, d => cs.contains d

/-- Does the atom list match a prefix of the character list? -/
def atomsMatch : List PatAtom → List Char → Bool
  | [], _ => true
  | _ :: _, [] => false
  | a :: as, c :: cs => atomMatch a c && atomsMatch as cs

/-- Python `re.search`: an unanchored pattern may match at any position. -/
def reSearch (p : Pat) (s : List Char) : Bool :=
  if p.anchored then atomsMatch p.atoms s
  else s.tails.any (atomsMatch p.atoms)

/-- Helper turning a literal string into a list of literal atoms. -/
def lits (s : String) : List PatAtom := s.toList.map PatAtom.lit

def sepClass : PatAtom := .cls ['-', '_']

def sepDotClass : PatAtom := .cls ['-', '_', '.']

/-- The CV patterns of `_detect_file_type` in source order. -/
def cv_patterns : List Pat :=
  [ ⟨false, lits "cv" ++ [sepDotClass]⟩
  , ⟨false, [sepClass] ++ lits "cv" ++ [sepDotClass]⟩
  , ⟨true, lits "cv."⟩
  , ⟨false, lits "resume"⟩
  , ⟨false, lits "curriculum"⟩
  , ⟨false, lits "ho" ++ [sepClass] ++ lits "so"⟩ ]

/-- The WBS patterns of `_detect_file_type` in source order. -/
def wbs_patterns : List Pat :=
  [ ⟨false, lits "wbs" ++ [sepDotClass]⟩
  , ⟨false, [sepClass] ++ lits "wbs" ++ [sepDotClass]⟩
  , ⟨true, lits "wbs."⟩
  , ⟨false, lits "work" ++ [sepClass] ++ lits "breakdown"⟩
  , ⟨false, lits "phan" ++ [sepClass] ++ lits "chia" ++ [sepClass]
      ++ lits "cong" ++ [sepClass] ++ lits "viec"⟩
  , ⟨false, lits "ke" ++ [sepClass] ++ lits "hoach"⟩
  , ⟨false, lits "task" ++ [sepClass] ++ lits "breakdown"⟩
  , ⟨false, lits "project" ++ [sepClass] ++ lits "plan"⟩ ]

/-- Python `str.lower()` on the ASCII filenames handled here, as the
character list the matcher consumes. -/
def lowerChars (s : String) : List Char := s.data.map Char.toLower

def cvNameMatches (file_name : String) : Bool :=
  cv_patterns.any (fun p => reSearch p (lowerChars file_name))

def wbsNameMatches (file_name : String) : Bool :=
  wbs_patterns.any (fun p => reSearch p (lowerChars file_name))

/-- `_detect_file_type` from `zalo_webhook_service.py`.  The source iterates
each pattern list and returns on the first match; since every pattern of a
block yields the same label, this is the `any` of the block. -/
def detect_file_type (file_name : String) (user_role : Role) : FileType :=
  if (user_role = Role.hr ∨ user_role = Role.unknown) ∧ cvNameMatches file_name then
    FileType.cv
  else if user_role = Role.manager ∧ wbsNameMatches file_name then
    FileType.wbs
  else
    FileType.unknown

/-! ## Event deduplicator and webhook endpoint (`src/app/routers/webhooks.py`) -/

/-- The module-level `processed_events` dict: event id to the
`datetime.now()` at which it was marked, in seconds. -/
abbrev DedupMap := List (String × Nat)

def lookupKey (k : String) (m : DedupMap) : Option Nat :=
  (m.find? (fun e => e.1 == k)).map (·.2)

/-- `cleanup_old_events`: drop entries whose timestamp is older than
`now - 1 hour`; an entry `t` is kept iff `¬ (t < now - 3600)`,
i.e. `now ≤ t + 3600` over the integers. -/
def cleanup_old_events (now : Nat) (m : DedupMap) : DedupMap :=
  m.filter (fun e => decide (now ≤ e.2 + 3600))

/-- The dedup core of the `zalo_webhook` handler: prune, test membership,
and on a fresh key mark it with the current time.  Returns `true` when the
key is new (processing proceeds) and `false` on a duplicate. -/
def seen_or_mark (k : String) (now : Nat) (m : DedupMap) : Bool × DedupMap :=
  let m1 := cleanup_old_events now m
  match lookupKey k m1 with
  | some _ => (false, m1)
  | none => (true, (k, now) :: m1)

/-- Run a sequence of observations `(key, arrival time)` through the
deduplicator, recording each observation with its is-new result. -/
def dedupRun (m : DedupMap) : List (String × Nat) → DedupMap × List ((String × Nat) × Bool)
  | [] => (m, [])
  | (k, t) :: rest =>
    let r := seen_or_mark k t m
    let res := dedupRun r.2 rest
    (res.1, ((k, t), r.1) :: res.2)

/-- The is-new results of the observations of key `k`, in order. -/
def resultsFor (k : String) (l : List ((String × Nat) × Bool)) : List Bool :=
  (l.filter (fun e => e.1.1 == k)).map (·.2)

/-- Number of observations of key `k` in an observation list. -/
def countKey (k : String) (obs : List (String × Nat)) : Nat :=
  (obs.filter (fun e => e.1 == k)).length

/-- The webhook payload fields read by `generate_event_id`; each is the
empty string when the JSON key is absent (the `dict.get` default chains). -/
structure WebhookPayload where
  event_name : String
  timestamp : String
  sender_id : String
  msg_id : String
  deriving DecidableEq, Repr

/-- `generate_event_id`: prefer the message id when present (non-empty,
Python truthiness), else fall back to the timestamp. -/
def generate_event_id (p : WebhookPayload) : String :=
  if p.msg_id ≠ "" then p.event_name ++ "_" ++ p.msg_id ++ "_" ++ p.sender_id
  else p.event_name ++ "_" ++ p.timestamp ++ "_" ++ p.sender_id

/-- The JSON body returned by the endpoint, with the HTTP status code. -/
structure HttpResponse where
  httpStatus : Nat
  status : String
  eventIdField : Option String
  messageField : Option String
  deriving DecidableEq, Repr

/-- The `POST /webhook` handler of `src/app/routers/webhooks.py`
(`zalo_webhook`).  `bodyRaises` models an exception escaping any step of
the handler body (the payload is duck-typed, so e.g. a non-dict `message`
field makes `generate_event_id` raise); the surrounding `try/except`
converts it into an HTTP 200 error body.  The returned `Bool` records
whether a background processing task was scheduled.  Dedup-map mutations
on the raising path are not modelled; only the response and the scheduled
flag matter to the claims. -/
def zalo_webhook (now : Nat) (events : DedupMap) (p : WebhookPayload) (bodyRaises : Bool) :
    HttpResponse × DedupMap × Bool :=
  if bodyRaises then
    (⟨200, "error", none, some "Internal error, will not retry"⟩, events, false)
  else
    let events1 := cleanup_old_events now events
    let eid := generate_event_id p
    match lookupKey eid events1 with
    | some _ => (⟨200, "ok", none, some "Event already processed"⟩, events1, false)
    | none => (⟨200, "ok", some eid, none⟩, (eid, now) :: events1, true)

/-- The body shape asserted by the specification for `POST /webhook`:
either `status "ok"` carrying an `event_id` field, or `status
"duplicate"`. -/
def specClaimedBody (r : HttpResponse) : Prop :=
  (r.status = "ok" ∧ r.eventIdField.isSome = true) ∨ r.status = "duplicate"

/-! ## CV analyzer model (`src/services/analysis_cv.py`) and
`extract_cv_information` (`src/services/zalo_webhook_service.py`) -/

/-- A project entry of the analyzer output (`analysis_cv.Project`). -/
structure CandidateProject where
  name : String
  role : Option String
  contribution : Option String
  deriving DecidableEq, Repr

/-- The analyzer output model `analysis_cv.Candidate`.  Note: the pydantic
model declares no `phone` field. -/
structure Candidate where
  id : String
  name : String
  role : Option String
  email : Option String
  experience_years : Option Nat
  experience_level : Option String
  skills : Option (List String)
  strengths : Option (List String)
  projects : Option (List CandidateProject)
  note : Option String
  deriving DecidableEq, Repr

/-- Reading `candidate.phone` in `extract_cv_information`: the
`analysis_cv.Candidate` pydantic model defines no such field, so the
attribute access raises `AttributeError`. -/
def candidate_phone (_c : Candidate) : Except String (Option String) :=
  Except.error "AttributeError: Candidate object has no attribute phone"

/-- Python truthiness of an optional string (`None` and `""` are falsy). -/
def optStrTruthy : Option String → Bool
  | some s => s ≠ ""
  | none => false

/-- Python truthiness of an optional int (`None` and `0` are falsy). -/
def optNatTruthy : Option Nat → Bool
  | some n => n ≠ 0
  | none => false

/-- The `cv_data` dict produced by `extract_cv_information` and consumed by
the registration workflow.  Keys absent from the default dict are modelled
as `none` fields, which is observably identical to the `dict.get` reads the
rest of the code performs. -/
structure CVData where
  name : String
  email : Option String
  phone : Option String
  skills : List String
  description : String
  experience_years : Option Nat
  experience_level : Option String
  role : Option String
  projects : List CandidateProject
  strengths : List String
  deriving DecidableEq, Repr

/-- `_get_default_cv_data`: name Unknown, empty contact data, the error
text in the description field. -/
def get_default_cv_data (error_msg : String) : CVData :=
  { name := "Unknown"
  , email := none
  , phone := none
  , skills := []
  , description := error_msg
  , experience_years := none
  , experience_level := none
  , role := none
  , projects := []
  , strengths := [] }

/-- `_build_description`: join the truthy candidate facts with a bar, or a
fixed fallback text. -/
def build_description (c : Candidate) : String :=
  let parts : List String :=
    (if optStrTruthy c.role then ["Role: " ++ c.role.getD ""] else [])
    ++ (if optNatTruthy c.experience_years then
          ["Experience: " ++ toString (c.experience_years.getD 0) ++ " years"] else [])
    ++ (if optStrTruthy c.experience_level then
          ["Level: " ++ c.experience_level.getD ""] else [])
    ++ (if (c.strengths.getD []).length ≠ 0 then
          ["Strengths: " ++ String.intercalate ", " (c.strengths.getD [])] else [])
    ++ (if (c.projects.getD []).length ≠ 0 then
          ["Projects: " ++ toString (c.projects.getD []).length ++ " projects"] else [])
  if parts.length ≠ 0 then String.intercalate " | " parts
  else "No description available"

/-- Building the `cv_data` dict from the first candidate.  The dict literal
evaluates its values left to right; the `candidate.phone` access raises, so
the construction as a whole is fallible. -/
def mk_cv_data (c : Candidate) : Except String CVData := do
  let name := if c.name ≠ "" then c.name else "Unknown"
  let email := c.email
  let phone ← candidate_phone c
  pure
    { name := name
    , email := email
    , phone := phone
    , skills := c.skills.getD []
    , description := build_description c
    , experience_years := c.experience_years
    , experience_level := c.experience_level
    , role := c.role
    , projects := c.projects.getD []
    , strengths := c.strengths.getD [] }

/-- One analyzer call outcome: an exception, or a returned value that is
falsy (`none`) or carries a candidate list. -/
inductive AnalyzerOut where
  | raises (msg : String)
  | returns (res : Option (List Candidate))

/-- An analyzer oracle: the outcome of the k-th invocation on a given
path.  The indexing by invocation count models a nondeterministic external
service. -/
def Analyzer := String → Nat → AnalyzerOut

/-- The mutable state of `ZaloWebhookService` relevant to extraction: the
`_cv_cache` dict plus an instrumentation counter of analyzer invocations. -/
structure CvServiceState where
  cv_cache : List (String × CVData)
  calls : Nat
  deriving DecidableEq, Repr

def cacheLookup (path : String) (cache : List (String × CVData)) : Option CVData :=
  (cache.find? (fun e => e.1 == path)).map (·.2)

/-- `extract_cv_information`: analyzer-configured guard, cache lookup,
analyzer call, result validation, dict construction, cache fill.  Every
failure returns the default profile and is caught internally; the function
itself never raises. -/
def extract_cv_information (analyzer : Option Analyzer) (st : CvServiceState)
    (cv_path : String) : CvServiceState × CVData :=
  match analyzer with
  | none => (st, get_default_cv_data "CV analyzer not configured")
  | some q =>
    match cacheLookup cv_path st.cv_cache with
    | some data => (st, data)
    | none =>
      match q cv_path st.calls with
      | .raises m =>
        ({ st with calls := st.calls + 1 },
         get_default_cv_data ("CV extraction error: " ++ m))
      | .returns none =>
        ({ st with calls := st.calls + 1 }, get_default_cv_data "CV extraction failed")
      | .returns (some []) =>
        ({ st with calls := st.calls + 1 }, get_default_cv_data "CV extraction failed")
      | .returns (some (c :: _)) =>
        match mk_cv_data c with
        | .error m =>
          ({ st with calls := st.calls + 1 },
           get_default_cv_data ("CV extraction error: " ++ m))
        | .ok data =>
          ({ cv_cache := st.cv_cache ++ [(cv_path, data)], calls := st.calls + 1 }, data)

/-- A concrete well-formed analyzer answer used in closed evaluations. -/
def sampleCandidate : Candidate :=
  { id := "1"
  , name := "Nguyen Van A"
  , role := some "Backend Developer"
  , email := some "a@example.com"
  , experience_years := some 5
  , experience_level := some "Senior"
  , skills := some ["Python"]
  , strengths := some ["Teamwork"]
  , projects := some [⟨"AutoPM", some "Dev", some "API"⟩]
  , note := none }

/-- An analyzer that parses a candidate successfully on every invocation. -/
def sampleAnalyzer : Analyzer := fun _ _ => .returns (some [sampleCandidate])

/-! ## Registration store and the approve / decline processing
(`store/get/remove_pending_registration` in `zalo_webhook_service.py`,
`create_user` in `project_service.py`, and the `hr_approved` /
`hr_declined` branches of `process_webhook_async` in
`src/app/routers/webhooks.py`) -/

/-- One pending registration (`_pending_registrations` value). -/
structure Registration where
  cv_data : CVData
  cv_path : String
  user_id_zalo : String
  timestamp : Nat
  deriving DecidableEq, Repr

/-- The `_pending_registrations` dict, registration id to entry. -/
abbrev RegStore := List (String × Registration)

def lookupReg (rid : String) (regs : RegStore) : Option Registration :=
  (regs.find? (fun e => e.1 == rid)).map (·.2)

/-- `remove_pending_registration`: delete the entry when present.  The
dict has unique keys, so filtering every entry with the key is the same
operation. -/
def removeReg (rid : String) (regs : RegStore) : RegStore :=
  regs.filter (fun e => !(e.1 == rid))

/-- `store_pending_registration` with the fresh uuid made explicit. -/
def store_pending_registration (regs : RegStore) (fresh : String) (cv_data : CVData)
    (cv_path user_id_zalo : String) (now : Nat) : RegStore :=
  regs ++ [(fresh, ⟨cv_data, cv_path, user_id_zalo, now⟩)]

/-- A row of the `users` table as `create_user` writes it. -/
structure DbUser where
  id : String
  name : String
  email : Option String
  phone : Option String
  cv : Option String
  description : Option String
  skills : List String
  role : String
  deriving DecidableEq, Repr

/-- The validated `UserCreate` payload (`src/app/schemas.py`). -/
structure UserCreate where
  name : String
  email : Option String
  phone : Option String
  cv : Option String
  zalo_user_id : String
  description : String
  skills : List String
  role : String
  deriving DecidableEq, Repr

/-- Abstraction of the `EmailStr` format check: the claims only need the
valid / invalid split, and every `EmailStr`-valid address contains an
`@`. -/
def emailFormatOk (e : String) : Bool := e.data.contains '@'

/-- Constructing `UserCreate(...)` in the `hr_approved` branch.  pydantic
validates on construction: non-empty name, `EmailStr` format, and the
either-email-or-zalo-id validator.  A validation failure here is raised
before the inner `try` of `process_webhook_async` and is therefore caught
only by the outer catch-all. -/
def mkUserCreate (pending : Registration) : Except String UserCreate :=
  let name := pending.cv_data.name
  if name = "" then Except.error "name: min_length 1"
  else
    match pending.cv_data.email with
    | some e =>
      if emailFormatOk e then
        Except.ok
          { name := name
          , email := some e
          , phone := pending.cv_data.phone
          , cv := some pending.cv_path
          , zalo_user_id := pending.user_id_zalo
          , description := pending.cv_data.description
          , skills := pending.cv_data.skills
          , role := "staff" }
      else Except.error "email: value is not a valid email address"
    | none =>
      if pending.user_id_zalo = "" then
        Except.error "Either email or zalo_user_id must be provided"
      else
        Except.ok
          { name := name
          , email := none
          , phone := pending.cv_data.phone
          , cv := some pending.cv_path
          , zalo_user_id := pending.user_id_zalo
          , description := pending.cv_data.description
          , skills := pending.cv_data.skills
          , role := "staff" }

/-- Exceptions `create_user` can raise: `ValueError` (caught by the
`except ValueError` branch of the approve path) or `TypeError` (from
`"@" not in None`, caught only by the outer catch-all). -/
inductive CreateErr where
  | valueError (msg : String)
  | typeError (msg : String)
  deriving DecidableEq, Repr

/-- SQLAlchemy filter `User.email == value`; `None` compiles to
`IS NULL`. -/
def emailRowMatch (row : Option String) (wanted : Option String) : Bool :=
  row == wanted

/-- `ProjectService.create_user` (`src/services/project_service.py`):
duplicate-email check, basic `@` format check (a `None` email makes the
`in` test raise `TypeError`), then insert.  The generated row id is the
uuid, modelled as a fresh name from the table size. -/
def create_user (uc : UserCreate) (users : List DbUser) :
    Except CreateErr (List DbUser × DbUser) :=
  if users.any (fun u => emailRowMatch u.email uc.email) then
    Except.error (.valueError "User with email already exists")
  else
    match uc.email with
    | none => Except.error (.typeError "argument of type NoneType is not iterable")
    | some e =>
      if e.data.contains '@' then
        let u : DbUser :=
          { id := "user-" ++ toString users.length
          , name := uc.name
          , email := some e
          , phone := uc.phone
          , cv := uc.cv
          , description := some uc.description
          , skills := uc.skills
          , role := if uc.role = "" then "staff" else uc.role }
        Except.ok (users ++ [u], u)
      else Except.error (.valueError "Invalid email format")

/-- The notifications sent by the approve / decline branches; bodies are
template data, identified here by kind and the fields spliced in. -/
inductive MsgKind where
  | notFound (rid : String)
  | approvalNotice (name : String)
  | approveConfirm (name : String)
  | creationError (msg : String)
  | rejectionNotice (name : String)
  | declineConfirm (name : Option String)
  deriving DecidableEq, Repr

/-- The shared mutable state the approve / decline branches act on. -/
structure MachineState where
  regs : RegStore
  users : List DbUser
  msgs : List (String × MsgKind)
  deriving DecidableEq, Repr

/-- An HR decision command. -/
inductive HrAction where
  | approve
  | decline
  deriving DecidableEq, Repr

/-- How one approve / decline attempt ended. -/
inductive Outcome where
  | success
  | notFound
  | validationFailed
  | internalError
  deriving DecidableEq, Repr

/-- The `hr_approved` / `hr_declined` branches of `process_webhook_async`:
look the registration up; reply not-found to HR when absent; on decline
delete then notify candidate and HR; on approve build the `UserCreate`,
call `create_user`, and only on success delete the registration and send
the notifications — a `ValueError` keeps the registration and notifies HR
of the failure, any other exception reaches the outer catch-all, which
only logs. -/
def process_decision (hr : String) (act : HrAction) (rid : String) (st : MachineState) :
    MachineState × Outcome :=
  match lookupReg rid st.regs with
  | none =>
    ({ st with msgs := st.msgs ++ [(hr, MsgKind.notFound rid)] }, Outcome.notFound)
  | some pending =>
    match act with
    | .decline =>
      ({ st with
          regs := removeReg rid st.regs
        , msgs := st.msgs
            ++ [(pending.user_id_zalo,
                 MsgKind.rejectionNotice
                   (if pending.cv_data.name = "" then "Unknown" else pending.cv_data.name))
              , (hr, MsgKind.declineConfirm (some pending.cv_data.name))] },
       Outcome.success)
    | .approve =>
      match mkUserCreate pending with
      | .error _ => (st, Outcome.internalError)
      | .ok uc =>
        match create_user uc st.users with
        | .ok (users2, u) =>
          ({ regs := removeReg rid st.regs
           , users := users2
           , msgs := st.msgs
               ++ [(pending.user_id_zalo, MsgKind.approvalNotice u.name)
                 , (hr, MsgKind.approveConfirm u.name)] },
           Outcome.success)
        | .error (.valueError m) =>
          ({ st with msgs := st.msgs ++ [(hr, MsgKind.creationError m)] },
           Outcome.validationFailed)
        | .error (.typeError _) => (st, Outcome.internalError)

/-- Run a list of decision attempts `(action, registration id)`
sequentially, recording each attempt with its outcome. -/
def run_decisions (hr : String) (st : MachineState) :
    List (HrAction × String) → MachineState × List ((HrAction × String) × Outcome)
  | [] => (st, [])
  | (a, rid) :: rest =>
    let r := process_decision hr a rid st
    let res := run_decisions hr r.1 rest
    (res.1, ((a, rid), r.2) :: res.2)

/-- Number of successful terminal transitions recorded for `rid`. -/
def successesFor (rid : String) (trace : List ((HrAction × String) × Outcome)) : Nat :=
  (trace.filter (fun e => e.1.2 == rid && e.2 == Outcome.success)).length

/-! ## Role resolver (`_get_user_role` in `zalo_webhook_service.py`) -/

/-- A user row as seen by the role lookup: only the stored role matters. -/
structure DirectoryUser where
  role : Option String
  deriving DecidableEq, Repr

/-- `ProjectService` (`src/services/project_service.py`) defines
`get_user`, `get_user_by_email`, ... but no method named
`get_user_by_zalo_id`; this constant records that fact of the source. -/
def projectServiceDefinesZaloLookup : Bool := false

/-- The call `self.project_service.get_user_by_zalo_id(zalo_user_id)`:
since the method does not exist on `ProjectService`, the attribute access
raises `AttributeError` instead of querying the directory. -/
def get_user_by_zalo_id_call (dir : List (String × DirectoryUser)) (zid : String) :
    Except String (Option DirectoryUser) :=
  if projectServiceDefinesZaloLookup then
    Except.ok ((dir.find? (fun e => e.1 == zid)).map (·.2))
  else
    Except.error "AttributeError: ProjectService object has no attribute get_user_by_zalo_id"

/-- `_get_user_role`: HR identity short-circuit, then the directory
lookup (when a project service was injected), with `user.role or staff`
and an `unknown` fallback.  The result is `Except` because the body can
raise. -/
def get_user_role (hr : String) (svc : Option (List (String × DirectoryUser)))
    (zalo_user_id : String) : Except String String :=
  if zalo_user_id = hr then Except.ok "hr"
  else
    match svc with
    | some dir =>
      match get_user_by_zalo_id_call dir zalo_user_id with
      | .error e => Except.error e
      | .ok (some u) =>
        Except.ok (match u.role with
          | some r => if r = "" then "staff" else r
          | none => "staff")
      | .ok none => Except.ok "unknown"
    | none => Except.ok "unknown"

/-! ## Text command handling (`handle_text_message` in
`zalo_webhook_service.py`) -/

/-- The `action` field of the dict `handle_text_message` returns on each
of its paths. -/
inductive TextAction where
  | hr_approved (registration_id : String)
  | hr_declined (registration_id : String)
  | registration_initiated
  | chatbot_response_sent (response : String)
  | chatbot_failed
  | message_received
  deriving DecidableEq, Repr

/-- Python whitespace for `str.strip()`. -/
def isPySpace (c : Char) : Bool :=
  [32, 9, 10, 13, 11, 12].contains c.toNat

/-- `str.strip()` on a character list. -/
def stripChars (l : List Char) : List Char :=
  ((l.dropWhile isPySpace).reverse.dropWhile isPySpace).reverse

/-- `text.split(" ", 1)[1].strip()`: everything after the first space,
stripped.  Lowercasing and uppercasing are the ASCII maps, which agree
with Python on every string the claims mention. -/
def afterFirstSpace (l : List Char) : List Char :=
  stripChars ((l.dropWhile (fun c => !(c == ' '))).drop 1)

/-- `handle_text_message`: the HR approve / decline commands are parsed
only when the sender is the configured HR identity; then the registration
keywords; then the chatbot conversation (an oracle from query to optional
reply — its long-memory side effects are not modelled, no claim touches
them). -/
def handle_text_message (hr : String) (chatbot : Option (String → Option String))
    (sender raw_text : String) : TextAction :=
  let text := stripChars raw_text.data
  let up := text.map Char.toUpper
  if sender == hr && ("APPROVE ".data.isPrefixOf up) then
    .hr_approved (String.mk (afterFirstSpace text))
  else if sender == hr && ("DECLINE ".data.isPrefixOf up) then
    .hr_declined (String.mk (afterFirstSpace text))
  else if [String.data "đăng ký", String.data "dang ky", String.data "register"].contains
      (text.map Char.toLower) then
    .registration_initiated
  else
    match chatbot with
    | some f =>
      match f (String.mk text) with
      | some resp => .chatbot_response_sent resp
      | none => .chatbot_failed
    | none => .message_received

/-! ## CV file ingestion (`_handle_cv_file` in `zalo_webhook_service.py`
and the `cv_received` branch of `process_webhook_async`) -/

/-- User-facing messages sent by `_handle_cv_file`. -/
inductive ServiceMsg where
  | cvNotAllowed
  | cvMustBePdf (file_name : String)
  | cvProcessApology
  deriving DecidableEq, Repr

/-- State touched by the CV ingestion path: files written to disk, sent
messages, and the extraction state (cache plus invocation counter). -/
structure CvPipelineState where
  saved : List String
  sent : List (String × ServiceMsg)
  ext : CvServiceState
  deriving DecidableEq, Repr

/-- The result dict of `_handle_cv_file` (or the exception it re-raises
after the apology message). -/
inductive CvFileResult where
  | errorNotAllowed (role : Role)
  | errorNotPdf (file_name : String)
  | raised (msg : String)
  | cvReceived (user_id cv_path : String) (cv_data : CVData)
  deriving DecidableEq, Repr

/-- `_handle_cv_file`: role gate, PDF extension gate, download-and-save
(the write happens only after a successful download; `downloadResult` is
the external platform oracle), then extraction.  `ts` is the
`datetime.now()` timestamp spliced into the collision-resistant file
name. -/
def handle_cv_file (analyzer : Option Analyzer) (st : CvPipelineState) (role : Role)
    (_file_url file_name user_id ts : String) (downloadResult : Except String Unit) :
    CvPipelineState × CvFileResult :=
  if ¬ (role = Role.hr ∨ role = Role.unknown) then
    ({ st with sent := st.sent ++ [(user_id, ServiceMsg.cvNotAllowed)] },
     .errorNotAllowed role)
  else if (".pdf".data.isSuffixOf (lowerChars file_name)) = false then
    ({ st with sent := st.sent ++ [(user_id, ServiceMsg.cvMustBePdf file_name)] },
     .errorNotPdf file_name)
  else
    match downloadResult with
    | .error m =>
      ({ st with sent := st.sent ++ [(user_id, ServiceMsg.cvProcessApology)] },
       .raised m)
    | .ok _ =>
      let path := "uploads/cvs/" ++ user_id ++ "_" ++ ts ++ "_" ++ file_name
      let st1 := { st with saved := st.saved ++ [path] }
      let r := extract_cv_information analyzer st1.ext path
      ({ st1 with ext := r.1 }, .cvReceived user_id path r.2)

/-- What `process_webhook_async` does with a `_handle_cv_file` result:
only the `cv_received` action stores a pending registration. -/
def process_cv_file_result (regs : RegStore) (fresh : String) (now : Nat) :
    CvFileResult → RegStore
  | .cvReceived uid path data => store_pending_registration regs fresh data path uid now
  | _ => regs

/-! ## Concrete demonstration data for closed evaluations -/

/-- A minimal extracted profile whose account creation succeeds. -/
def demoCV : CVData :=
  { name := "An"
  , email := some "an@x.co"
  , phone := none
  , skills := []
  , description := ""
  , experience_years := none
  , experience_level := none
  , role := none
  , projects := []
  , strengths := [] }

def demoReg : Registration := ⟨demoCV, "uploads/cvs/z1_cv.pdf", "z1", 0⟩

def demoState : MachineState := ⟨[("r1", demoReg)], [], []⟩

/-- A profile whose email collides with an existing user row. -/
def demoDupCV : CVData := { demoCV with name := "Binh", email := some "b@x.co" }

def demoDupReg : Registration := ⟨demoDupCV, "uploads/cvs/z2_cv.pdf", "z2", 0⟩

def demoDupUser : DbUser :=
  { id := "user-0"
  , name := "Existing"
  , email := some "b@x.co"
  , phone := none
  , cv := none
  , description := none
  , skills := []
  , role := "staff" }

def demoDupState : MachineState := ⟨[("r2", demoDupReg)], [demoDupUser], []⟩

/-- The `UserCreate` built from `demoDupReg`. -/
def demoUc : UserCreate :=
  { name := "Binh"
  , email := some "b@x.co"
  , phone := none
  , cv := some "uploads/cvs/z2_cv.pdf"
  , zalo_user_id := "z2"
  , description := ""
  , skills := []
  , role := "staff" }

/-- An analyzer whose every invocation raises. -/
def demoRaisingAnalyzer : Analyzer := fun _ _ => AnalyzerOut.raises "boom"

end AutoPM

namespace AutoPM

/-! ## Lemmas about the deduplicator -/

theorem lookupKey_cons (k : String) (e : String × Nat) (m : DedupMap) :
    lookupKey k (e :: m) = if e.1 == k then some e.2 else lookupKey k m := by
  by_cases h : e.1 == k <;> simp [lookupKey, List.find?_cons, h]

theorem lookupKey_eq_none (k : String) (m : DedupMap) :
    lookupKey k m = none ↔ ∀ e ∈ m, (e.1 == k) = false := by
  simp [lookupKey, List.find?_eq_none]

theorem cleanup_keeps_entry (k : String) (t now : Nat) (m : DedupMap)
    (h : lookupKey k m = some t) (hk : now ≤ t + 3600) :
    lookupKey k (cleanup_old_events now m) = some t := by
  induction m with
  | nil => simp [lookupKey] at h
  | cons e rest ih =>
    rw [lookupKey_cons] at h
    by_cases he : e.1 == k
    · rw [if_pos he] at h
      injection h with h2
      subst h2
      unfold cleanup_old_events
      rw [List.filter_cons, if_pos (by simpa using hk)]
      rw [lookupKey_cons, if_pos he]
    · rw [if_neg he] at h
      unfold cleanup_old_events at ih ⊢
      rw [List.filter_cons]
      split_ifs with hp
      · rw [lookupKey_cons, if_neg he]
        exact ih h
      · exact ih h

theorem cleanup_none (k : String) (now : Nat) (m : DedupMap)
    (h : lookupKey k m = none) :
    lookupKey k (cleanup_old_events now m) = none := by
  rw [lookupKey_eq_none] at h ⊢
  intro e he
  exact h e (List.mem_of_mem_filter he)

theorem cleanup_prunes_stale (k : String) (t now : Nat) (m : DedupMap)
    (hN : (m.map Prod.fst).Nodup) (h : lookupKey k m = some t) (hst : t + 3600 < now) :
    lookupKey k (cleanup_old_events now m) = none := by
  induction m with
  | nil => simp [lookupKey] at h
  | cons e rest ih =>
    rw [lookupKey_cons] at h
    rw [List.map_cons, List.nodup_cons] at hN
    by_cases he : e.1 == k
    · rw [if_pos he] at h
      injection h with h2
      subst h2
      unfold cleanup_old_events
      rw [List.filter_cons, if_neg (by simpa using Nat.not_le.mpr hst)]
      apply cleanup_none
      rw [lookupKey_eq_none]
      intro e2 he2
      have hke : e.1 = k := by simpa using he
      by_contra hc
      have h3 : e2.1 = k := by simpa using hc
      exact hN.1 (hke ▸ h3 ▸ List.mem_map_of_mem Prod.fst he2)
    · rw [if_neg he] at h
      unfold cleanup_old_events at ih ⊢
      rw [List.filter_cons]
      split_ifs with hp
      · rw [lookupKey_cons, if_neg he]
        exact ih hN.2 h
      · exact ih hN.2 h

theorem cleanup_nodup (now : Nat) (m : DedupMap) (hN : (m.map Prod.fst).Nodup) :
    ((cleanup_old_events now m).map Prod.fst).Nodup :=
  hN.sublist ((List.filter_sublist m).map Prod.fst)

theorem seen_or_mark_nodup (k : String) (now : Nat) (m : DedupMap)
    (hN : (m.map Prod.fst).Nodup) :
    (((seen_or_mark k now m).2).map Prod.fst).Nodup := by
  unfold seen_or_mark
  cases hl : lookupKey k (cleanup_old_events now m) with
  | some t =>
    simp only [hl]
    simpa using cleanup_nodup now m hN
  | none =>
    simp only [hl, List.map_cons, List.nodup_cons]
    refine ⟨?_, cleanup_nodup now m hN⟩
    rw [lookupKey_eq_none] at hl
    intro hc
    obtain ⟨e, he, he2⟩ := List.mem_map.mp hc
    have h3 := hl e he
    rw [he2] at h3
    simp at h3

theorem seen_duplicate (k : String) (now t1 : Nat) (m : DedupMap)
    (h : lookupKey k m = some t1) (hwin : now ≤ t1 + 3600) :
    seen_or_mark k now m = (false, cleanup_old_events now m) := by
  unfold seen_or_mark
  simp only [cleanup_keeps_entry k t1 now m h hwin]

theorem seen_new (k : String) (now : Nat) (m : DedupMap)
    (h : lookupKey k m = none) :
    seen_or_mark k now m = (true, (k, now) :: cleanup_old_events now m) := by
  unfold seen_or_mark
  simp only [cleanup_none k now m h]

theorem seen_entry_preserved (k k2 : String) (t1 now : Nat) (m : DedupMap)
    (h : lookupKey k m = some t1) (hwin : now ≤ t1 + 3600) :
    lookupKey k (seen_or_mark k2 now m).2 = some t1 := by
  have h1 : lookupKey k (cleanup_old_events now m) = some t1 :=
    cleanup_keeps_entry k t1 now m h hwin
  unfold seen_or_mark
  cases hl : lookupKey k2 (cleanup_old_events now m) with
  | some t => simpa only [hl] using h1
  | none =>
    simp only [hl]
    rw [lookupKey_cons]
    have hne : (k2 == k) = false := by
      rw [beq_eq_false_iff_ne]
      intro hkk
      subst hkk
      rw [hl] at h1
      exact Option.noConfusion h1
    rw [if_neg (by simp [hne])]
    exact h1

theorem seen_absent_other (k k2 : String) (now : Nat) (m : DedupMap)
    (h : lookupKey k m = none) (hne : k2 ≠ k) :
    lookupKey k (seen_or_mark k2 now m).2 = none := by
  have h1 : lookupKey k (cleanup_old_events now m) = none := cleanup_none k now m h
  unfold seen_or_mark
  cases hl : lookupKey k2 (cleanup_old_events now m) with
  | some t => simpa only [hl] using h1
  | none =>
    simp only [hl]
    rw [lookupKey_cons, if_neg (by simp [hne])]
    exact h1

theorem resultsFor_cons (k : String) (e : (String × Nat) × Bool)
    (l : List ((String × Nat) × Bool)) :
    resultsFor k (e :: l) =
      if e.1.1 == k then e.2 :: resultsFor k l else resultsFor k l := by
  by_cases h : e.1.1 == k <;> simp [resultsFor, List.filter_cons, h]

theorem countKey_cons (k : String) (e : String × Nat) (obs : List (String × Nat)) :
    countKey k (e :: obs) =
      if e.1 == k then countKey k obs + 1 else countKey k obs := by
  by_cases h : e.1 == k <;> simp [countKey, List.filter_cons, h]

theorem run_dup_phase (k : String) (t1 : Nat) (obs : List (String × Nat)) :
    ∀ m : DedupMap, lookupKey k m = some t1 →
    (∀ e ∈ obs, e.2 ≤ t1 + 3600) →
    resultsFor k (dedupRun m obs).2 = List.replicate (countKey k obs) false
    ∧ lookupKey k (dedupRun m obs).1 = some t1 := by
  induction obs with
  | nil => intro m hm _; exact ⟨by simp [dedupRun, resultsFor, countKey], hm⟩
  | cons e rest ih =>
    intro m hm hwin
    obtain ⟨k2, t⟩ := e
    have ht : t ≤ t1 + 3600 := hwin (k2, t) (List.mem_cons_self _ _)
    have hpres : lookupKey k (seen_or_mark k2 t m).2 = some t1 :=
      seen_entry_preserved k k2 t1 t m hm ht
    have hrest := ih (seen_or_mark k2 t m).2 hpres
      (fun e2 he2 => hwin e2 (List.mem_cons_of_mem _ he2))
    by_cases hk2 : k2 = k
    · subst hk2
      have hdup : seen_or_mark k2 t m = (false, cleanup_old_events t m) :=
        seen_duplicate k2 t t1 m hm ht
      constructor
      · simp only [dedupRun, resultsFor_cons, countKey_cons]
        rw [hdup] at hrest ⊢
        simp only [beq_self_eq_true, if_pos]
        rw [hrest.1]
        simp [List.replicate_succ]
      · simp only [dedupRun]
        exact hrest.2
    · have hne : (k2 == k) = false := beq_eq_false_iff_ne.mpr hk2
      constructor
      · simp only [dedupRun, resultsFor_cons, countKey_cons, hne, if_neg]
        simp only [Bool.false_eq_true, if_false]
        exact hrest.1
      · simp only [dedupRun]
        exact hrest.2

theorem run_absent_phase (k : String) (obs : List (String × Nat)) :
    ∀ m : DedupMap, lookupKey k m = none →
    (∀ e ∈ obs, e.1 ≠ k) →
    resultsFor k (dedupRun m obs).2 = []
    ∧ lookupKey k (dedupRun m obs).1 = none := by
  induction obs with
  | nil => intro m hm _; exact ⟨by simp [dedupRun, resultsFor], hm⟩
  | cons e rest ih =>
    intro m hm hkeys
    obtain ⟨k2, t⟩ := e
    have hk2 : k2 ≠ k := hkeys (k2, t) (List.mem_cons_self _ _)
    have habs : lookupKey k (seen_or_mark k2 t m).2 = none :=
      seen_absent_other k k2 t m hm hk2
    have hrest := ih (seen_or_mark k2 t m).2 habs
      (fun e2 he2 => hkeys e2 (List.mem_cons_of_mem _ he2))
    constructor
    · simp only [dedupRun, resultsFor_cons, beq_eq_false_iff_ne.mpr hk2]
      simp only [Bool.false_eq_true, if_false]
      exact hrest.1
    · simp only [dedupRun]
      exact hrest.2

theorem run_nodup (obs : List (String × Nat)) :
    ∀ m : DedupMap, (m.map Prod.fst).Nodup →
    ((dedupRun m obs).1.map Prod.fst).Nodup := by
  induction obs with
  | nil => intro m hN; simpa [dedupRun] using hN
  | cons e rest ih =>
    intro m hN
    exact ih _ (seen_or_mark_nodup e.1 e.2 m hN)

theorem dedupRun_append (m : DedupMap) (l1 l2 : List (String × Nat)) :
    dedupRun m (l1 ++ l2)
      = ((dedupRun (dedupRun m l1).1 l2).1,
         (dedupRun m l1).2 ++ (dedupRun (dedupRun m l1).1 l2).2) := by
  induction l1 generalizing m with
  | nil => simp [dedupRun]
  | cons e rest ih => simp [dedupRun, ih]

theorem resultsFor_append (k : String) (l1 l2 : List ((String × Nat) × Bool)) :
    resultsFor k (l1 ++ l2) = resultsFor k l1 ++ resultsFor k l2 := by
  simp [resultsFor, List.filter_append]

/-! ## Lemmas about the registration store -/

theorem lookupReg_eq_none (rid : String) (regs : RegStore) :
    lookupReg rid regs = none ↔ ∀ e ∈ regs, (e.1 == rid) = false := by
  simp [lookupReg, List.find?_eq_none]

theorem lookupReg_removeReg_self (rid : String) (regs : RegStore) :
    lookupReg rid (removeReg rid regs) = none := by
  rw [lookupReg_eq_none]
  intro e he
  have h2 := (List.mem_filter.mp he).2
  simpa using h2

theorem lookupReg_filter_none (rid : String) (regs : RegStore)
    (p : String × Registration → Bool) (h : lookupReg rid regs = none) :
    lookupReg rid (regs.filter p) = none := by
  rw [lookupReg_eq_none] at h ⊢
  intro e he
  exact h e (List.mem_of_mem_filter he)

theorem process_regs_cases (hr : String) (a : HrAction) (rid : String) (st : MachineState) :
    (process_decision hr a rid st).1.regs = st.regs
    ∨ (process_decision hr a rid st).1.regs = removeReg rid st.regs := by
  unfold process_decision
  cases hl : lookupReg rid st.regs with
  | none => simp only [hl]; left; trivial
  | some pending =>
    cases a with
    | decline => simp only [hl]; right; trivial
    | approve =>
      simp only [hl]
      cases hmk : mkUserCreate pending with
      | error m => simp only [hmk]; left; trivial
      | ok uc =>
        simp only [hmk]
        cases hcu : create_user uc st.users with
        | ok p => simp only [hcu]; right; trivial
        | error err =>
          cases err with
          | valueError m => simp only [hcu]; left; trivial
          | typeError m => simp only [hcu]; left; trivial

theorem process_absent_preserved (hr : String) (a : HrAction) (rid rid2 : String)
    (st : MachineState) (h : lookupReg rid st.regs = none) :
    lookupReg rid (process_decision hr a rid2 st).1.regs = none := by
  rcases process_regs_cases hr a rid2 st with hc | hc <;> rw [hc]
  · exact h
  · exact lookupReg_filter_none rid st.regs _ h

theorem process_notFound (hr : String) (a : HrAction) (rid : String) (st : MachineState)
    (h : lookupReg rid st.regs = none) :
    process_decision hr a rid st
      = ({ st with msgs := st.msgs ++ [(hr, MsgKind.notFound rid)] }, Outcome.notFound) := by
  unfold process_decision
  simp only [h]

theorem process_success_removes (hr : String) (a : HrAction) (rid : String)
    (st : MachineState) (h : (process_decision hr a rid st).2 = Outcome.success) :
    lookupReg rid (process_decision hr a rid st).1.regs = none := by
  unfold process_decision at h ⊢
  cases hl : lookupReg rid st.regs with
  | none =>
    simp only [hl] at h
    exact Outcome.noConfusion h
  | some pending =>
    cases a with
    | decline =>
      simp only [hl]
      exact lookupReg_removeReg_self rid st.regs
    | approve =>
      simp only [hl] at h ⊢
      cases hmk : mkUserCreate pending with
      | error m =>
        simp only [hmk] at h
        exact Outcome.noConfusion h
      | ok uc =>
        simp only [hmk] at h ⊢
        cases hcu : create_user uc st.users with
        | ok p =>
          simp only [hcu]
          exact lookupReg_removeReg_self rid st.regs
        | error err =>
          cases err with
          | valueError m =>
            simp only [hcu] at h
            exact Outcome.noConfusion h
          | typeError m =>
            simp only [hcu] at h
            exact Outcome.noConfusion h

theorem successesFor_cons (rid : String) (e : (HrAction × String) × Outcome)
    (l : List ((HrAction × String) × Outcome)) :
    successesFor rid (e :: l) =
      if (e.1.2 == rid && e.2 == Outcome.success) = true
      then successesFor rid l + 1 else successesFor rid l := by
  by_cases h : (e.1.2 == rid && e.2 == Outcome.success) = true <;>
    simp [successesFor, List.filter_cons, h]

theorem successesFor_eq_zero (rid : String) (trace : List ((HrAction × String) × Outcome))
    (h : ∀ e ∈ trace, e.1.2 = rid → e.2 = Outcome.notFound) :
    successesFor rid trace = 0 := by
  unfold successesFor
  rw [List.length_eq_zero, List.filter_eq_nil_iff]
  intro e he
  by_cases hk : e.1.2 = rid
  · have h2 := h e he hk
    rw [h2]
    simp
  · simp [beq_eq_false_iff_ne.mpr hk]

theorem run_absent_all (hr rid : String) (atts : List (HrAction × String)) :
    ∀ st : MachineState, lookupReg rid st.regs = none →
    (∀ e ∈ (run_decisions hr st atts).2, e.1.2 = rid → e.2 = Outcome.notFound)
    ∧ lookupReg rid (run_decisions hr st atts).1.regs = none := by
  induction atts with
  | nil => intro st h; exact ⟨by simp [run_decisions], h⟩
  | cons a rest ih =>
    intro st h
    obtain ⟨act, r2⟩ := a
    have habs2 : lookupReg rid (process_decision hr act r2 st).1.regs = none :=
      process_absent_preserved hr act rid r2 st h
    have hrest := ih _ habs2
    constructor
    · intro e he hekey
      simp only [run_decisions] at he
      rcases List.mem_cons.mp he with he1 | he2
      · subst he1
        simp only at hekey
        subst hekey
        rw [process_notFound hr act r2 st h]
      · exact hrest.1 e he2 hekey
    · simp only [run_decisions]
      exact hrest.2

theorem run_successes_le_one (hr rid : String) (atts : List (HrAction × String)) :
    ∀ st : MachineState, successesFor rid (run_decisions hr st atts).2 ≤ 1 := by
  induction atts with
  | nil => intro st; simp [run_decisions, successesFor]
  | cons a rest ih =>
    intro st
    obtain ⟨act, r2⟩ := a
    simp only [run_decisions]
    rw [successesFor_cons]
    split_ifs with hcond
    · have hkey : r2 = rid := by
        have h2 := (Bool.and_eq_true _ _).mp hcond
        exact beq_iff_eq.mp h2.1
      have hsucc : (process_decision hr act r2 st).2 = Outcome.success := by
        have h2 := (Bool.and_eq_true _ _).mp hcond
        exact beq_iff_eq.mp h2.2
      subst hkey
      have habs := process_success_removes hr act r2 st hsucc
      have h0 := successesFor_eq_zero r2 _ ((run_absent_all hr r2 rest _ habs).1)
      rw [h0]
    · exact Nat.le_trans (ih _) (by omega)

theorem run_success_implies_absent (hr rid : String) (atts : List (HrAction × String)) :
    ∀ st : MachineState,
    1 ≤ successesFor rid (run_decisions hr st atts).2 →
    lookupReg rid (run_decisions hr st atts).1.regs = none := by
  induction atts with
  | nil => intro st h; simp [run_decisions, successesFor] at h
  | cons a rest ih =>
    intro st h
    obtain ⟨act, r2⟩ := a
    simp only [run_decisions] at h ⊢
    rw [successesFor_cons] at h
    split_ifs at h with hcond
    · have hkey : r2 = rid := by
        have h2 := (Bool.and_eq_true _ _).mp hcond
        exact beq_iff_eq.mp h2.1
      have hsucc : (process_decision hr act r2 st).2 = Outcome.success := by
        have h2 := (Bool.and_eq_true _ _).mp hcond
        exact beq_iff_eq.mp h2.2
      subst hkey
      have habs := process_success_removes hr act r2 st hsucc
      exact (run_absent_all hr r2 rest _ habs).2
    · exact ih _ h

end AutoPM

namespace AutoPM

/-! ## Claim theorems -/

/-- C1: Terminal-state exclusivity of the Registration Store.  For every
registration id and every sequence of APPROVE / DECLINE attempts processed
sequentially, at most one attempt succeeds; once the registration is
absent (in particular after a successful terminal transition, which
deletes it), every further attempt on that id takes the not-found branch,
which sends HR the registration-not-found message and leaves the store
unchanged; and a successful attempt does delete the registration. -/
theorem registration_terminal_exclusivity (hr rid : String) (st0 : MachineState)
    (attempts : List (HrAction × String)) :
    successesFor rid (run_decisions hr st0 attempts).2 ≤ 1
    ∧ (∀ (pre : List (HrAction × String)) (a : HrAction × String)
         (post : List (HrAction × String)),
        attempts = pre ++ a :: post → a.2 = rid →
        1 ≤ successesFor rid (run_decisions hr st0 pre).2 →
        (process_decision hr a.1 a.2 (run_decisions hr st0 pre).1).2 = Outcome.notFound)
    ∧ (∀ (st : MachineState) (a : HrAction), lookupReg rid st.regs = none →
        process_decision hr a rid st
          = ({ st with msgs := st.msgs ++ [(hr, MsgKind.notFound rid)] }, Outcome.notFound))
    ∧ (∀ (st : MachineState) (a : HrAction),
        (process_decision hr a rid st).2 = Outcome.success →
        lookupReg rid (process_decision hr a rid st).1.regs = none) := by
  refine ⟨run_successes_le_one hr rid attempts st0, ?_, ?_, ?_⟩
  · intro pre a post _heq hkey hsucc
    have habs := run_success_implies_absent hr rid pre st0 hsucc
    rw [hkey, process_notFound hr a.1 rid (run_decisions hr st0 pre).1 habs]
  · intro st a h
    exact process_notFound hr a rid st h
  · intro st a h
    exact process_success_removes hr a rid st h

/-- C1 witness: on a store holding registration r1, the run
APPROVE r1; DECLINE r1 produces at most one success, and the DECLINE
following the successful APPROVE hits the not-found branch. -/
theorem registration_terminal_exclusivity_witness :
    successesFor "r1" (run_decisions "HR" demoState
      [(HrAction.approve, "r1"), (HrAction.decline, "r1")]).2 ≤ 1
    ∧ (process_decision "HR" HrAction.decline "r1"
        (run_decisions "HR" demoState [(HrAction.approve, "r1")]).1).2
      = Outcome.notFound :=
  ⟨(registration_terminal_exclusivity "HR" "r1" demoState
      [(HrAction.approve, "r1"), (HrAction.decline, "r1")]).1,
   (registration_terminal_exclusivity "HR" "r1" demoState
      [(HrAction.approve, "r1"), (HrAction.decline, "r1")]).2.1
      [(HrAction.approve, "r1")] (HrAction.decline, "r1") [] rfl rfl (by decide)⟩

/-- C2: Event-deduplicator idempotency.  Starting from a state without
key k, a run consisting of other-key observations, a first observation of
k at time t1 and then any observations all within the one-hour window
yields is-new true for the first observation of k and false for each of
its later observations; and once more than one hour has passed, the next
check of k (after the opportunistic pruning that every check performs)
reports it new again. -/
theorem dedup_event_key_idempotency (k : String) (t1 t2 : Nat)
    (pre post : List (String × Nat)) (m0 : DedupMap)
    (hN : (m0.map Prod.fst).Nodup)
    (h0 : lookupKey k m0 = none)
    (hpre : ∀ e ∈ pre, e.1 ≠ k)
    (hpost : ∀ e ∈ post, e.2 ≤ t1 + 3600)
    (hfresh : t1 + 3600 < t2) :
    resultsFor k (dedupRun m0 (pre ++ (k, t1) :: post)).2
      = true :: List.replicate (countKey k post) false
    ∧ (seen_or_mark k t2 (dedupRun m0 (pre ++ (k, t1) :: post)).1).1 = true := by
  obtain ⟨hres1, habs1⟩ := run_absent_phase k pre m0 h0 hpre
  have hmark : seen_or_mark k t1 (dedupRun m0 pre).1
      = (true, (k, t1) :: cleanup_old_events t1 (dedupRun m0 pre).1) :=
    seen_new k t1 _ habs1
  have hlook2 : lookupKey k ((k, t1) :: cleanup_old_events t1 (dedupRun m0 pre).1)
      = some t1 := by
    rw [lookupKey_cons]
    simp
  obtain ⟨hres3, hsome3⟩ := run_dup_phase k t1 post _ hlook2 hpost
  have hN1 : ((dedupRun m0 pre).1.map Prod.fst).Nodup := run_nodup pre m0 hN
  have hN2 : (((k, t1) :: cleanup_old_events t1 (dedupRun m0 pre).1).map Prod.fst).Nodup := by
    have h2 := seen_or_mark_nodup k t1 (dedupRun m0 pre).1 hN1
    rwa [hmark] at h2
  have hN3 := run_nodup post _ hN2
  constructor
  · rw [dedupRun_append, resultsFor_append, hres1]
    simp only [dedupRun, hmark, List.nil_append]
    rw [resultsFor_cons]
    simp only [beq_self_eq_true, if_pos]
    rw [hres3]
  · rw [dedupRun_append]
    simp only [dedupRun, hmark]
    have hprune : lookupKey k (cleanup_old_events t2
        (dedupRun ((k, t1) :: cleanup_old_events t1 (dedupRun m0 pre).1) post).1) = none :=
      cleanup_prunes_stale k t1 t2 _ hN3 hsome3 hfresh
    unfold seen_or_mark
    simp only [hprune]

/-- C2 witness: key k1 first seen at t=100 among other traffic, repeated
at t=200 and t=3700 (both within the hour), then checked again at t=4000
after the window has passed. -/
theorem dedup_event_key_idempotency_witness :
    resultsFor "k1" (dedupRun []
      ([("e0", 50)] ++ ("k1", 100) :: [("k1", 200), ("e2", 300), ("k1", 3700)])).2
      = true :: List.replicate
          (countKey "k1" [("k1", 200), ("e2", 300), ("k1", 3700)]) false
    ∧ (seen_or_mark "k1" 4000 (dedupRun []
        ([("e0", 50)] ++ ("k1", 100) :: [("k1", 200), ("e2", 300), ("k1", 3700)])).1).1
      = true :=
  dedup_event_key_idempotency "k1" 100 4000 [("e0", 50)]
    [("k1", 200), ("e2", 300), ("k1", 3700)] []
    (by decide) (by decide) (by decide) (by decide) (by decide)

/-- C3: Role-gated file classification.  The classification is cv exactly
when the role is hr or unknown and a CV pattern matches; it is wbs exactly
when the role is manager and a WBS pattern matches; it is unknown exactly
when the role's applicable pattern set does not match or the role is
authorized for neither; and concretely CV_A.pdf classifies as unknown for
a manager and as cv for an unknown sender. -/
theorem detect_file_type_role_gated (f : String) (r : Role) :
    (detect_file_type f r = FileType.cv ↔
      (r = Role.hr ∨ r = Role.unknown) ∧ cvNameMatches f = true)
    ∧ (detect_file_type f r = FileType.wbs ↔
      r = Role.manager ∧ wbsNameMatches f = true)
    ∧ (detect_file_type f r = FileType.unknown ↔
      ¬ ((r = Role.hr ∨ r = Role.unknown) ∧ cvNameMatches f = true)
      ∧ ¬ (r = Role.manager ∧ wbsNameMatches f = true))
    ∧ detect_file_type "CV_A.pdf" Role.manager = FileType.unknown
    ∧ detect_file_type "CV_A.pdf" Role.unknown = FileType.cv := by
  refine ⟨?_, ?_, ?_, by decide, by decide⟩ <;>
    · unfold detect_file_type
      split_ifs with h1 h2 <;> simp_all <;>
        (intro hm; subst hm; rcases h1.1 with h | h <;> simp_all)

/-- C3 witness: the two concrete classifications of the claim, read off
the theorem at the inputs it names. -/
theorem detect_file_type_role_gated_witness :
    detect_file_type "CV_A.pdf" Role.manager = FileType.unknown
    ∧ detect_file_type "CV_A.pdf" Role.unknown = FileType.cv :=
  ⟨(detect_file_type_role_gated "CV_A.pdf" Role.manager).2.2.2.1,
   (detect_file_type_role_gated "CV_A.pdf" Role.unknown).2.2.2.2⟩

/-- C4: the claim says the role lookup never fails, but for every channel
id other than the configured HR identity the code calls
`project_service.get_user_by_zalo_id`, a method `ProjectService` does not
define, so the lookup raises `AttributeError` instead of returning a
role. -/
theorem get_user_role_lookup_raises (hr zid : String)
    (dir : List (String × DirectoryUser)) (h : zid ≠ hr) :
    get_user_role hr (some dir) zid =
      Except.error
        "AttributeError: ProjectService object has no attribute get_user_by_zalo_id" := by
  unfold get_user_role get_user_by_zalo_id_call projectServiceDefinesZaloLookup
  simp [h]

/-- C4 witness: the lookup of a non-HR id raises even when the directory
holds a matching user row. -/
theorem get_user_role_lookup_raises_witness :
    get_user_role "HR-1" (some [("u-42", ⟨some "manager"⟩)]) "u-42" =
      Except.error
        "AttributeError: ProjectService object has no attribute get_user_by_zalo_id" :=
  get_user_role_lookup_raises "HR-1" "u-42" [("u-42", ⟨some "manager"⟩)] (by decide)

/-- C5: the claim says two extraction requests for one path invoke the
analyzer exactly once and serve the second from the cache; in the code the
`cv_data` construction reads `candidate.phone`, a field the analyzer's
`Candidate` model does not declare, so even a successful analyzer response
ends in the error branch, nothing is ever cached, and the second request
invokes the analyzer a second time. -/
theorem extract_cv_cache_never_populated :
    (extract_cv_information (some sampleAnalyzer)
        (extract_cv_information (some sampleAnalyzer) ⟨[], 0⟩ "uploads/cvs/u1_t_cv.pdf").1
        "uploads/cvs/u1_t_cv.pdf").1.calls = 2
    ∧ (extract_cv_information (some sampleAnalyzer) ⟨[], 0⟩
        "uploads/cvs/u1_t_cv.pdf").1.cv_cache = []
    ∧ (extract_cv_information (some sampleAnalyzer) ⟨[], 0⟩ "uploads/cvs/u1_t_cv.pdf").2
      = get_default_cv_data
          "CV extraction error: AttributeError: Candidate object has no attribute phone" := by
  decide

/-- C6: APPROVE atomicity under validation failure.  When the registration
is present and `create_user` raises a `ValueError` (for example a
duplicate email), the approve branch leaves the store and the users table
unchanged, sends HR the creation-failure message, and a subsequent APPROVE
still finds the registration. -/
theorem approve_validation_failure_retains (hr rid : String) (st : MachineState)
    (pending : Registration) (uc : UserCreate) (m : String)
    (hreg : lookupReg rid st.regs = some pending)
    (hmk : mkUserCreate pending = Except.ok uc)
    (hfail : create_user uc st.users = Except.error (.valueError m)) :
    process_decision hr HrAction.approve rid st
      = ({ st with msgs := st.msgs ++ [(hr, MsgKind.creationError m)] },
         Outcome.validationFailed)
    ∧ lookupReg rid (process_decision hr HrAction.approve rid st).1.regs = some pending := by
  unfold process_decision
  simp [hreg, hmk, hfail]

/-- C6 witness: approving registration r2, whose candidate email collides
with an existing user row, keeps the registration and notifies HR. -/
theorem approve_validation_failure_retains_witness :
    process_decision "HR" HrAction.approve "r2" demoDupState
      = ({ demoDupState with msgs := demoDupState.msgs
            ++ [("HR", MsgKind.creationError "User with email already exists")] },
         Outcome.validationFailed)
    ∧ lookupReg "r2" (process_decision "HR" HrAction.approve "r2" demoDupState).1.regs
      = some demoDupReg :=
  approve_validation_failure_retains "HR" "r2" demoDupState demoDupReg demoUc
    "User with email already exists" (by decide) rfl rfl

/-- C7 counterexample: a redelivered event (its key already marked) gets
HTTP 200 with body status ok and a message field — not the
status-duplicate body the claim describes, and without an event_id
field. -/
theorem zalo_webhook_duplicate_body_counterexample :
    ¬ specClaimedBody
        (zalo_webhook 1000 [("user_send_text_m1_u1", 900)]
          ⟨"user_send_text", "123", "u1", "m1"⟩ false).1
    ∧ (zalo_webhook 1000 [("user_send_text_m1_u1", 900)]
          ⟨"user_send_text", "123", "u1", "m1"⟩ false).1
      = ⟨200, "ok", none, some "Event already processed"⟩ := by
  constructor
  · unfold specClaimedBody
    decide
  · decide

/-- C7 as amended: the handler always answers HTTP 200, with one of three
fixed bodies — the internal-error body when the handler body itself
raises, the ok-with-message body for a duplicate key, or the
ok-with-event_id body for a new event. -/
theorem zalo_webhook_always_http_ok (now : Nat) (events : DedupMap)
    (p : WebhookPayload) (bodyRaises : Bool) :
    (zalo_webhook now events p bodyRaises).1.httpStatus = 200
    ∧ ((zalo_webhook now events p bodyRaises).1
        = ⟨200, "error", none, some "Internal error, will not retry"⟩
      ∨ (zalo_webhook now events p bodyRaises).1
        = ⟨200, "ok", none, some "Event already processed"⟩
      ∨ (zalo_webhook now events p bodyRaises).1
        = ⟨200, "ok", some (generate_event_id p), none⟩) := by
  unfold zalo_webhook
  cases bodyRaises
  · cases hl : lookupKey (generate_event_id p) (cleanup_old_events now events) <;>
      simp [hl]
  · simp

/-- C7 witness: a fresh follow event is answered 200 with one of the three
bodies. -/
theorem zalo_webhook_always_http_ok_witness :
    (zalo_webhook 0 [] ⟨"follow", "1", "u", "m"⟩ false).1.httpStatus = 200
    ∧ ((zalo_webhook 0 [] ⟨"follow", "1", "u", "m"⟩ false).1
        = ⟨200, "error", none, some "Internal error, will not retry"⟩
      ∨ (zalo_webhook 0 [] ⟨"follow", "1", "u", "m"⟩ false).1
        = ⟨200, "ok", none, some "Event already processed"⟩
      ∨ (zalo_webhook 0 [] ⟨"follow", "1", "u", "m"⟩ false).1
        = ⟨200, "ok", some (generate_event_id ⟨"follow", "1", "u", "m"⟩), none⟩) :=
  zalo_webhook_always_http_ok 0 [] ⟨"follow", "1", "u", "m"⟩ false

/-- C8: Non-PDF CV rejection before persistence.  For a CV-authorized role
and a filename that does not end in .pdf case-insensitively, the handler
sends the requester the PDF-required message and returns the error result;
nothing is saved to disk, the extraction state is untouched (so no
download, write, or analyzer call happened), and the driver stores no
registration for the submission. -/
theorem cv_non_pdf_rejected_before_persistence (analyzer : Option Analyzer)
    (st : CvPipelineState) (role : Role) (url file_name user_id ts : String)
    (dl : Except String Unit) (regs : RegStore) (fresh : String) (now : Nat)
    (hrole : role = Role.hr ∨ role = Role.unknown)
    (hpdf : (".pdf".data.isSuffixOf (lowerChars file_name)) = false) :
    handle_cv_file analyzer st role url file_name user_id ts dl
      = ({ st with sent := st.sent ++ [(user_id, ServiceMsg.cvMustBePdf file_name)] },
         CvFileResult.errorNotPdf file_name)
    ∧ (handle_cv_file analyzer st role url file_name user_id ts dl).1.saved = st.saved
    ∧ (handle_cv_file analyzer st role url file_name user_id ts dl).1.ext = st.ext
    ∧ process_cv_file_result regs fresh now
        (handle_cv_file analyzer st role url file_name user_id ts dl).2 = regs := by
  have hmain : handle_cv_file analyzer st role url file_name user_id ts dl
      = ({ st with sent := st.sent ++ [(user_id, ServiceMsg.cvMustBePdf file_name)] },
         CvFileResult.errorNotPdf file_name) := by
    unfold handle_cv_file
    rw [if_neg (not_not_intro hrole), hpdf]
    simp
  refine ⟨hmain, by rw [hmain], by rw [hmain], by simp [hmain, process_cv_file_result]⟩

/-- C8 witness: an unknown-role sender submitting CV_An.docx is rejected
with the PDF-required message and nothing is persisted. -/
theorem cv_non_pdf_rejected_before_persistence_witness :
    handle_cv_file none ⟨[], [], ⟨[], 0⟩⟩ Role.unknown
      "http://f" "CV_An.docx" "z3" "20250101_000000" (Except.ok ())
      = (⟨[], [("z3", ServiceMsg.cvMustBePdf "CV_An.docx")], ⟨[], 0⟩⟩,
         CvFileResult.errorNotPdf "CV_An.docx")
    ∧ process_cv_file_result [] "r9" 0
        (handle_cv_file none ⟨[], [], ⟨[], 0⟩⟩ Role.unknown
          "http://f" "CV_An.docx" "z3" "20250101_000000" (Except.ok ())).2 = [] :=
  ⟨(cv_non_pdf_rejected_before_persistence none ⟨[], [], ⟨[], 0⟩⟩ Role.unknown
      "http://f" "CV_An.docx" "z3" "20250101_000000" (Except.ok ()) [] "r9" 0
      (Or.inr rfl) (by decide)).1,
   (cv_non_pdf_rejected_before_persistence none ⟨[], [], ⟨[], 0⟩⟩ Role.unknown
      "http://f" "CV_An.docx" "z3" "20250101_000000" (Except.ok ()) [] "r9" 0
      (Or.inr rfl) (by decide)).2.2.2⟩

/-- C9: HR-command authorization.  A text event whose sender differs from
the configured HR identity never yields the hr_approved or hr_declined
action, whatever the message text (including literal APPROVE / DECLINE
commands) and whatever the chatbot oracle answers. -/
theorem handle_text_message_hr_gate (hr sender raw rid : String)
    (chatbot : Option (String → Option String)) (h : sender ≠ hr) :
    handle_text_message hr chatbot sender raw ≠ TextAction.hr_approved rid
    ∧ handle_text_message hr chatbot sender raw ≠ TextAction.hr_declined rid := by
  have hb : (sender == hr) = false := beq_eq_false_iff_ne.mpr h
  unfold handle_text_message
  simp only [hb, Bool.false_and, Bool.false_eq_true, if_false]
  constructor <;>
    · split_ifs with hk
      · simp
      · cases chatbot with
        | none => simp
        | some f => cases hf : f (String.mk (stripChars raw.data)) <;> simp [hf]

/-- C9 witness: a non-HR sender writing a literal APPROVE command does not
trigger the approve or decline action. -/
theorem handle_text_message_hr_gate_witness :
    handle_text_message "HR" none "u1" "APPROVE r-1" ≠ TextAction.hr_approved "r-1"
    ∧ handle_text_message "HR" none "u1" "APPROVE r-1" ≠ TextAction.hr_declined "r-1" :=
  handle_text_message_hr_gate "HR" "u1" "APPROVE r-1" "r-1" none (by decide)

/-- C10: Only successful extractions are cached.  With no analyzer
configured the call returns the default profile and touches nothing; on a
cache miss, an analyzer exception or an empty candidate result returns the
default profile with the error text in the description and leaves the
cache exactly as it was; and any cache-miss call with a configured
analyzer performs one analyzer invocation — so a path whose extraction
failed is analyzed again on the next request instead of being served a
cached failure. -/
theorem extract_cv_failure_not_cached (q : Analyzer) (st : CvServiceState) (path m : String) :
    (extract_cv_information none st path
      = (st, get_default_cv_data "CV analyzer not configured"))
    ∧ (cacheLookup path st.cv_cache = none → q path st.calls = .raises m →
        extract_cv_information (some q) st path
          = ({ st with calls := st.calls + 1 },
             get_default_cv_data ("CV extraction error: " ++ m)))
    ∧ (cacheLookup path st.cv_cache = none →
        (q path st.calls = .returns none ∨ q path st.calls = .returns (some [])) →
        extract_cv_information (some q) st path
          = ({ st with calls := st.calls + 1 }, get_default_cv_data "CV extraction failed"))
    ∧ (cacheLookup path st.cv_cache = none →
        (extract_cv_information (some q) st path).1.calls = st.calls + 1) := by
  refine ⟨rfl, ?_, ?_, ?_⟩
  · intro h1 h2
    unfold extract_cv_information
    simp [h1, h2]
  · intro h1 h2
    unfold extract_cv_information
    rcases h2 with h2 | h2 <;> simp [h1, h2]
  · intro h1
    unfold extract_cv_information
    rcases hq : q path st.calls with m2 | res
    · simp [h1, hq]
    · rcases res with _ | l
      · simp [h1, hq]
      · rcases l with _ | ⟨c, cs⟩
        · simp [h1, hq]
        · rcases hmk : mk_cv_data c with m3 | d <;> simp [h1, hq, hmk]

/-- C10 witness: an analyzer that raises leaves the cache empty, returns
the default profile carrying the error text, and was invoked once. -/
theorem extract_cv_failure_not_cached_witness :
    extract_cv_information (some demoRaisingAnalyzer) ⟨[], 0⟩ "uploads/cvs/p.pdf"
      = ({ cv_cache := [], calls := 1 },
         get_default_cv_data "CV extraction error: boom")
    ∧ (extract_cv_information (some demoRaisingAnalyzer) ⟨[], 0⟩
        "uploads/cvs/p.pdf").1.calls = 1 :=
  ⟨(extract_cv_failure_not_cached demoRaisingAnalyzer ⟨[], 0⟩
      "uploads/cvs/p.pdf" "boom").2.1 rfl rfl,
   (extract_cv_failure_not_cached demoRaisingAnalyzer ⟨[], 0⟩
      "uploads/cvs/p.pdf" "boom").2.2.2 rfl⟩

end AutoPM
